import Mathlib

/-!
Verification development for the deployment-orchestration scripts of this
repository. The Python sources under scripts/ are shallowly embedded as
executable Lean definitions: HTTP and subprocess results become explicit
response values, side-effecting call sequences become explicit call lists,
and wall-clock time becomes rational-valued instants. Each section names
the source file and function it embeds.
-/

/- ### Generic string helpers (substring search, as used by the Python in operator) -/

/-- Boolean test that pat is a prefix of s, on character lists. -/
def listStartsWith : List Char → List Char → Bool
  | _, [] => true
  | [], _ :: _ => false
  | a :: as, b :: bs => a == b && listStartsWith as bs

/-- Boolean test that pat occurs as a contiguous substring of s
(the Python in operator on strings), on character lists. -/
def listHasInfix (pat : List Char) : List Char → Bool
  | [] => listStartsWith [] pat
  | c :: rest => listStartsWith (c :: rest) pat || listHasInfix pat rest

/-- Characters of a string, lowercased (Python str.lower). -/
def lowerChars (s : String) : List Char :=
  s.data.map Char.toLower

/-- Python sub in s for plain strings. -/
def strHasSub (s pat : String) : Bool :=
  listHasInfix pat.data s.data

/- ### Control-plane data model (scripts/portainer_stack_manager.py) -/

/-- A stack object as returned by the Portainer list endpoint: Name, Id,
EndpointId, Status (1 = active, 2 = inactive). -/
structure Stack where
  name : String
  id : Nat
  endpointId : Nat
  status : Nat
deriving DecidableEq, Repr

/-- A container object as returned by the Docker containers endpoint:
State, Status, and the compose-project label used to group by stack. -/
structure Container where
  state : String
  status : String
  project : String
deriving DecidableEq, Repr

/-- One HTTP call issued to the Portainer API, as observed on the wire. -/
inductive ApiCall
  | list
  | create (name : String)
  | update (id : Nat)
  | delete (id : Nat)
deriving DecidableEq, Repr

/-- Environment of one manager run: the (fixed) response to GET stackList, the
response to the containers listing, and the outcomes of the mutating
requests. A response of none models a transport exception; otherwise the
pair carries the HTTP status code and the decoded body. -/
structure PortainerEnv where
  listResp : Option (Nat × List Stack)
  containersResp : Option (Nat × List Container)
  createOk : Bool
  updateOk : Bool
  deleteOk : Bool

/-- find by Name over the decoded stack list (the loop in get_stack). -/
def findStack (stackList : List Stack) (stackName : String) : Option Stack :=
  stackList.find? fun s => s.name == stackName

/-- get_stack: fetch the stack list; on transport failure or a non-200
status the function returns None, otherwise the first stack whose Name
matches. -/
def getStack (resp : Option (Nat × List Stack)) (stackName : String) : Option Stack :=
  match resp with
  | none => none
  | some (code, stackList) => if code == 200 then findStack stackList stackName else none

/-- listingFailed: the GET stackList request raised or returned non-200. -/
def listingFailed : Option (Nat × List Stack) → Bool
  | none => true
  | some (code, _) => code != 200

/-- load_compose_file: none models a missing file; a present file is
accepted when it mentions services: or version: (case sensitive). -/
def validCompose (content : String) : Bool :=
  strHasSub content "services:" || strHasSub content "version:"

/-- Result of loading the compose file: none when the file is missing or
fails the validity check (both raise in the source and are caught by the
surrounding try). -/
def loadCompose (file : Option String) : Option String :=
  match file with
  | none => none
  | some content => if validCompose content then some content else none

/-- remove_stack: look the stack up by name, then DELETE it; success is a
204 response, modelled by deleteOk. Returns the result together with the
API calls issued. -/
def removeStack (env : PortainerEnv) (stackName : String) : Bool × List ApiCall :=
  match getStack env.listResp stackName with
  | none => (false, [ApiCall.list])
  | some st => (env.deleteOk, [ApiCall.list, ApiCall.delete st.id])

/-- create_stack: check for an existing stack first; refuse (with no
mutating call) when one exists and force is not set; with force, remove the
existing stack and only on successful removal proceed; then load the
compose file and POST the create request. -/
def createStack (env : PortainerEnv) (stackName : String) (file : Option String)
    (force : Bool) : Bool × List ApiCall :=
  match getStack env.listResp stackName with
  | some _ =>
    if !force then (false, [ApiCall.list])
    else
      let rm := removeStack env stackName
      if !rm.1 then (false, ApiCall.list :: rm.2)
      else
        match loadCompose file with
        | none => (false, ApiCall.list :: rm.2)
        | some _ => (env.createOk, (ApiCall.list :: rm.2) ++ [ApiCall.create stackName])
  | none =>
    match loadCompose file with
    | none => (false, [ApiCall.list])
    | some _ => (env.createOk, [ApiCall.list, ApiCall.create stackName])

/-- update_stack: look the stack up by name; fail when absent; otherwise
load the compose file and PUT the update to the stack id. -/
def updateStack (env : PortainerEnv) (stackName : String) (file : Option String) :
    Bool × List ApiCall :=
  match getStack env.listResp stackName with
  | none => (false, [ApiCall.list])
  | some st =>
    match loadCompose file with
    | none => (false, [ApiCall.list])
    | some _ => (env.updateOk, [ApiCall.list, ApiCall.update st.id])

/-- The branch deploy_stack takes after its lookup. -/
inductive Route
  | create
  | update
deriving DecidableEq, Repr

/-- deploy_stack routing: update when the lookup finds the stack, create
otherwise. -/
def deployRoute (env : PortainerEnv) (stackName : String) : Route :=
  match getStack env.listResp stackName with
  | some _ => Route.update
  | none => Route.create

/-- deploy_stack: smart deploy, one lookup then create_stack (without
force) or update_stack. -/
def deployStack (env : PortainerEnv) (stackName : String) (file : Option String) :
    Bool × List ApiCall :=
  match deployRoute env stackName with
  | Route.update =>
    let r := updateStack env stackName file
    (r.1, ApiCall.list :: r.2)
  | Route.create =>
    let r := createStack env stackName file false
    (r.1, ApiCall.list :: r.2)

/-- Number of create requests in a call list. -/
def countCreates (calls : List ApiCall) : Nat :=
  calls.countP fun c => match c with | ApiCall.create _ => true | _ => false

/-- Number of update requests in a call list. -/
def countUpdates (calls : List ApiCall) : Nat :=
  calls.countP fun c => match c with | ApiCall.update _ => true | _ => false

/-- Number of delete requests in a call list. -/
def countDeletes (calls : List ApiCall) : Nat :=
  calls.countP fun c => match c with | ApiCall.delete _ => true | _ => false

example : strHasSub "services:\nweb:" "services:" = true := by decide
example : strHasSub "x: 1" "services:" = false := by decide
example : getStack (some (200, [⟨"web", 4, 3, 1⟩])) "web" = some ⟨"web", 4, 3, 1⟩ := by decide
example : getStack (some (500, [⟨"web", 4, 3, 1⟩])) "web" = none := by decide
example :
    deployStack ⟨some (200, []), none, true, true, true⟩ "x" (some "services:") =
      (true, [ApiCall.list, ApiCall.list, ApiCall.create "x"]) := by decide
example :
    deployStack ⟨some (200, [⟨"x", 9, 3, 1⟩]), none, true, true, true⟩ "x" (some "services:") =
      (true, [ApiCall.list, ApiCall.list, ApiCall.update 9]) := by decide

/- ### Health check (scripts/portainer_stack_manager.py, health_check) -/

/-- Whether one container is counted healthy by health_check: only running
containers count; among them, a Status containing healthy counts, a Status
containing starting does not, any other Status counts as running-healthy.
The containment tests are on the lowercased Status string. -/
def containerCountsHealthy (c : Container) : Bool :=
  if c.state == "running" then
    if listHasInfix "healthy".data (lowerChars c.status) then true
    else if listHasInfix "starting".data (lowerChars c.status) then false
    else true
  else false

/-- Containers belonging to the stack: compose-project label equals the
stack name. -/
def stackContainers (containers : List Container) (stackName : String) : List Container :=
  containers.filter fun c => c.project == stackName

/-- healthy_count of health_check. -/
def healthyCount (containers : List Container) : Nat :=
  (containers.filter containerCountsHealthy).length

/-- health_check: fail when the stack is not found or not active; fetch the
container list; on a 200 response report healthy exactly when every
stack container is counted healthy; report failure on any other response. -/
def healthCheck (env : PortainerEnv) (stackName : String) : Bool :=
  match getStack env.listResp stackName with
  | none => false
  | some st =>
    if st.status != 1 then false
    else
      match env.containersResp with
      | some (code, containers) =>
        if code == 200 then
          let scs := stackContainers containers stackName
          healthyCount scs == scs.length
        else false
      | none => false

/- ### Remote execution channel (scripts/ssh_manager.py) -/

/-- State of the SSH manager: the recorded start time of the last
connection (updated by _wait_for_connection_limit). Time is modelled by
rationals. -/
structure SSHManagerState where
  lastConnectionTime : ℚ

/-- _wait_for_connection_limit: with now the clock reading on entry and
slack ≥ 0 the extra time consumed by the sleep overshoot and the second
clock reading, the recorded start time of the connection about to open.
When less than the 2-second connection delay has elapsed since the last
recorded start, the manager sleeps for the remainder, so the new reading
is last + 2 + slack; otherwise it is now + slack. -/
def nextConnStart (last now slack : ℚ) : ℚ :=
  if now - last < 2 then last + 2 + slack else now + slack

/-- _wait_for_connection_limit as a state update. Both run_ssh_command and
run_multiple_commands call this exactly once, before opening their single
connection. -/
def waitForConnectionLimit (s : SSHManagerState) (now slack : ℚ) : SSHManagerState :=
  ⟨nextConnStart s.lastConnectionTime now slack⟩

/-- combined_command of run_multiple_commands: each command wrapped in
parentheses, joined with the shell and-operator. -/
def combinedCommand (cmds : List String) : String :=
  String.intercalate " && " (cmds.map fun c => "(" ++ c ++ ")")

/-- Exit code of a shell and-chain, given the exit codes of its commands:
the first nonzero code, or 0 when all commands succeed (the empty chain
exits 0). -/
def chainExit : List Int → Int
  | [] => 0
  | c :: rest => if c == 0 then chainExit rest else c

/-- Which commands of the and-chain actually run: the first always runs;
after a failure every later command is skipped. -/
def chainExecuted : List Int → List Bool
  | [] => []
  | c :: rest => true :: (if c == 0 then chainExecuted rest else rest.map fun _ => false)

/-- run_multiple_commands reports success exactly when the subprocess
returncode, which is the exit code of the remote and-chain, equals 0
(the no-timeout, no-exception path). -/
def runMultipleCommandsOk (codes : List Int) : Bool :=
  chainExit codes == 0

/- ### Direct SSH deployment (scripts/deploy_via_ssh.py) -/

/-- The kinds of remote connections deploy_via_ssh opens, one subprocess
each, in order: an ssh that creates the remote directory, an scp of the
compose file, optional scp of the backend and frontend directories and of
the env file, and the final ssh running the compose down/build/up chain. -/
inductive ConnKind
  | sshMkdir
  | scpCompose
  | scpBackend
  | scpFrontend
  | scpEnv
  | sshDeploy
  | sshExec
deriving DecidableEq, Repr

/-- Connections whose purpose is file transfer (the scp invocations). -/
def isTransferConn : ConnKind → Bool
  | ConnKind.scpCompose => true
  | ConnKind.scpBackend => true
  | ConnKind.scpFrontend => true
  | ConnKind.scpEnv => true
  | _ => false

/-- The local facts deploy_via_ssh branches on: configuration present,
compose file present, which optional directories and files exist, and
whether the compose scp succeeded (its failure aborts the run; the other
transfer failures only warn). -/
structure DeployCfg where
  sshConfigOk : Bool
  composeFileExists : Bool
  backendDirExists : Bool
  frontendDirExists : Bool
  envFileExists : Bool
  scpComposeOk : Bool
deriving DecidableEq, Repr

/-- The ordered list of remote connections deploy_via_ssh opens. Missing
configuration or compose file aborts before any connection; a failed
compose scp aborts after it; otherwise the optional transfers run,
followed by the single deploy connection. -/
def deployConnections (cfg : DeployCfg) : List ConnKind :=
  if !cfg.sshConfigOk || !cfg.composeFileExists then []
  else
    [ConnKind.sshMkdir, ConnKind.scpCompose] ++
      (if cfg.scpComposeOk then
        (if cfg.backendDirExists then [ConnKind.scpBackend] else []) ++
          (if cfg.frontendDirExists then [ConnKind.scpFrontend] else []) ++
          (if cfg.envFileExists then [ConnKind.scpEnv] else []) ++
          [ConnKind.sshDeploy]
      else [])

/- ### Connection open/close traces (claim C2) -/

/-- Transport events observed by an instrumented fake transport. -/
inductive ConnEvent
  | opened
  | closed
deriving DecidableEq, Repr

/-- Every connection is opened by a blocking subprocess call and is closed
when that call returns, so each connection contributes an adjacent
open/close pair to the event trace. -/
def connTrace : List ConnKind → List ConnEvent
  | [] => []
  | _ :: rest => ConnEvent.opened :: ConnEvent.closed :: connTrace rest

/-- Number of connections open after a trace: opens minus closes. -/
def openConns : List ConnEvent → Int
  | [] => 0
  | ConnEvent.opened :: t => 1 + openConns t
  | ConnEvent.closed :: t => openConns t - 1

/-- The remote operations of a run: run_ssh_command, run_multiple_commands
(one connection each) and deploy_via_ssh (its connection list). -/
inductive RemoteOp
  | sshCommand
  | multiCommands
  | deployViaSsh (cfg : DeployCfg)

/-- Connections an operation opens, in order. -/
def opConnections : RemoteOp → List ConnKind
  | RemoteOp.sshCommand => [ConnKind.sshExec]
  | RemoteOp.multiCommands => [ConnKind.sshExec]
  | RemoteOp.deployViaSsh cfg => deployConnections cfg

/-- Event trace of a whole single-threaded run: the operations execute
strictly one after another, so the run trace is the concatenation of the
per-operation traces. -/
def runTrace : List RemoteOp → List ConnEvent
  | [] => []
  | op :: rest => connTrace (opConnections op) ++ runTrace rest

/- ### Image builder (scripts/registry_builder.py, build_stack) -/

/-- The docker invocations build_stack issues for one service:
buildxBuildPush is docker buildx build with platform list and push flag,
publishing straight to the registry; dockerBuild is a plain docker build
producing a local image; dockerPush is a later docker push of that local
image. -/
inductive BuildStep
  | buildxBuildPush
  | dockerBuild
  | dockerPush
deriving DecidableEq, Repr

/-- Steps build_stack runs for one service, given the multiplatform and
push arguments: only when both are set does it take the buildx
direct-to-registry path; otherwise it runs a plain local build, followed
by a separate push only when push is set without multiplatform. -/
def serviceBuildSteps (multiplatform push : Bool) : List BuildStep :=
  if multiplatform && push then [BuildStep.buildxBuildPush]
  else
    [BuildStep.dockerBuild] ++ (if push && !multiplatform then [BuildStep.dockerPush] else [])

/-- Whether the step sequence materializes a local image. -/
def materializesLocalImage (steps : List BuildStep) : Bool :=
  steps.contains BuildStep.dockerBuild

/- ### Orchestrator (scripts/infrastructure_manager.py) -/

/-- STACK_ORDER: the fixed deployment order of the six stacks. -/
def STACK_ORDER : List String :=
  ["traefik", "jupyter", "opensearch", "personal-website", "flask-api", "minecraft"]

/-- Per-stack facts of one deploy_all_stacks run: whether the compose file
exists, whether the chosen deployment method succeeded, and whether the
subsequent health check passed. -/
structure StackOutcome where
  composeFileExists : Bool
  deployOk : Bool
  healthOk : Bool
deriving DecidableEq, Repr

/-- A stack is added to failed_stacks exactly when its compose file is
missing or its deployment fails; the health check result is only printed
as a warning. -/
def stackDeploySucceeds (o : StackOutcome) : Bool :=
  o.composeFileExists && o.deployOk

/-- deploy_all_stacks returns True exactly when failed_stacks stays empty,
that is, when every stack in STACK_ORDER deploys successfully. -/
def deployAllStacks (outcome : String → StackOutcome) : Bool :=
  STACK_ORDER.all fun s => stackDeploySucceeds (outcome s)

/-- main for the deploy-all command: exit 0 when deploy_all_stacks
returned True, exit 1 otherwise. -/
def mainExitDeployAll (outcome : String → StackOutcome) : Nat :=
  if deployAllStacks outcome then 0 else 1

/-- Per-bundle deployment states of the specification state machine. -/
inductive DState
  | absent
  | building
  | published
  | activating
  | active
  | unhealthy
  | failed
deriving DecidableEq, Repr

/-- Modelled from the spec (state machine of section 4.6, which the code
keeps implicit): a bundle whose deployment fails ends Failed; a deployed
bundle ends Active when the Health Verifier passes and Unhealthy when it
does not. -/
def specBundleState (o : StackOutcome) : DState :=
  if stackDeploySucceeds o then
    if o.healthOk then DState.active else DState.unhealthy
  else DState.failed

example : healthCheck ⟨some (200, [⟨"w", 1, 3, 1⟩]), some (200, [⟨"running", "Up", "w"⟩]), true, true, true⟩ "w" = true := by decide
example : healthCheck ⟨some (200, [⟨"w", 1, 3, 1⟩]), some (200, [⟨"running", "Up", "w"⟩, ⟨"exited", "Exited (1)", "w"⟩]), true, true, true⟩ "w" = false := by decide
example : combinedCommand ["a", "b"] = "(a) && (b)" := by decide
example : deployConnections ⟨true, true, true, true, true, true⟩ =
  [ConnKind.sshMkdir, ConnKind.scpCompose, ConnKind.scpBackend, ConnKind.scpFrontend,
   ConnKind.scpEnv, ConnKind.sshDeploy] := by decide
example : serviceBuildSteps true false = [BuildStep.dockerBuild] := by decide
example : openConns (connTrace [ConnKind.sshExec, ConnKind.sshMkdir]) = 0 := by decide

/- ### Claim theorems -/

/-- Claim C4: deploy_stack first looks the stack up by name; when no stack
of that name is found it performs exactly one create call and zero update
calls, and when one is found it performs exactly one update call and zero
create calls. Hypotheses: the listing succeeds with a 200 response and the
compose file loads. -/
theorem deployStack_upsert_routing (env : PortainerEnv) (stackName : String)
    (file : Option String) (sl : List Stack)
    (hl : env.listResp = some (200, sl))
    (hc : (loadCompose file).isSome = true) :
    (findStack sl stackName = none →
      countCreates (deployStack env stackName file).2 = 1 ∧
      countUpdates (deployStack env stackName file).2 = 0) ∧
    (findStack sl stackName ≠ none →
      countUpdates (deployStack env stackName file).2 = 1 ∧
      countCreates (deployStack env stackName file).2 = 0) := by
  have hg : getStack env.listResp stackName = findStack sl stackName := by
    simp [getStack, hl]
  obtain ⟨content, hcontent⟩ := Option.isSome_iff_exists.mp hc
  constructor
  · intro hnone
    simp [deployStack, deployRoute, hg, hnone, createStack, hcontent,
      countCreates, countUpdates, List.countP_cons, List.countP_nil]
  · intro hsome
    obtain ⟨st, hst⟩ := Option.ne_none_iff_exists'.mp hsome
    simp [deployStack, deployRoute, hg, hst, updateStack, hcontent,
      countCreates, countUpdates, List.countP_cons, List.countP_nil]

/-- Concrete environment for the C4 witness: empty remote stack list. -/
def envC4 : PortainerEnv := ⟨some (200, []), none, true, true, true⟩

/-- Witness for C4: with no stack named x, deploy issues one create and no
update. -/
theorem deployStack_upsert_routing_witness :
    countCreates (deployStack envC4 "x" (some "services:")).2 = 1 ∧
    countUpdates (deployStack envC4 "x" (some "services:")).2 = 0 :=
  (deployStack_upsert_routing envC4 "x" (some "services:") [] rfl (by decide)).1 (by decide)

/-- Claim C7: when a stack of the requested name already exists and force
is not set, create_stack fails, issues no create request and no mutating
request at all (the remote stack set is untouched); with force set and the
removal succeeding, the delete of the existing stack is issued strictly
before the single create. -/
theorem createStack_exists_semantics (env : PortainerEnv) (stackName : String)
    (file : Option String) (sl : List Stack) (st : Stack)
    (hl : env.listResp = some (200, sl))
    (hf : findStack sl stackName = some st)
    (hdel : env.deleteOk = true)
    (hc : (loadCompose file).isSome = true) :
    ((createStack env stackName file false).1 = false ∧
      (createStack env stackName file false).2 = [ApiCall.list] ∧
      countCreates (createStack env stackName file false).2 = 0) ∧
    (createStack env stackName file true).2 =
      [ApiCall.list, ApiCall.list, ApiCall.delete st.id, ApiCall.create stackName] := by
  have hg : getStack env.listResp stackName = some st := by
    simp [getStack, hl, hf]
  obtain ⟨content, hcontent⟩ := Option.isSome_iff_exists.mp hc
  refine ⟨?_, ?_⟩
  · simp [createStack, hg, countCreates, List.countP_cons, List.countP_nil]
  · simp [createStack, removeStack, hg, hdel, hcontent]

/-- Concrete environment for the C7 witness: one stack named x with id 9. -/
def envC7 : PortainerEnv := ⟨some (200, [⟨"x", 9, 3, 1⟩]), none, true, true, true⟩

/-- Witness for C7 at a concrete input. -/
theorem createStack_exists_semantics_witness :
    ((createStack envC7 "x" (some "services:") false).1 = false ∧
      (createStack envC7 "x" (some "services:") false).2 = [ApiCall.list] ∧
      countCreates (createStack envC7 "x" (some "services:") false).2 = 0) ∧
    (createStack envC7 "x" (some "services:") true).2 =
      [ApiCall.list, ApiCall.list, ApiCall.delete 9, ApiCall.create "x"] :=
  createStack_exists_semantics envC7 "x" (some "services:") [⟨"x", 9, 3, 1⟩] ⟨"x", 9, 3, 1⟩
    rfl (by decide) rfl (by decide)

/-- Claim C9: when the stack listing fails (transport exception or non-200
response), get_stack returns none exactly as if the stack did not exist,
and deploy_stack consequently routes to create, even when a stack of that
name is present in the actual remote stack set. -/
theorem listingFailure_routes_to_create (env : PortainerEnv) (stackName : String)
    (remote : List Stack) (st : Stack)
    (hfail : listingFailed env.listResp = true)
    (hremote : findStack remote stackName = some st) :
    getStack env.listResp stackName = none ∧ deployRoute env stackName = Route.create := by
  cases hresp : env.listResp with
  | none => simp [getStack, deployRoute, hresp]
  | some p =>
    obtain ⟨code, sl⟩ := p
    have hcode : (code == 200) = false := by
      rw [hresp] at hfail
      simpa [listingFailed] using hfail
    simp [getStack, deployRoute, hresp, hcode]

/-- Concrete failing environment for the C9 witness: a 500 listing response
while the remote set does contain the stack. -/
def envC9 : PortainerEnv := ⟨some (500, [⟨"x", 9, 3, 1⟩]), none, true, true, true⟩

/-- Witness for C9 at a concrete input. -/
theorem listingFailure_routes_to_create_witness :
    getStack envC9.listResp "x" = none ∧ deployRoute envC9 "x" = Route.create :=
  listingFailure_routes_to_create envC9 "x" [⟨"x", 9, 3, 1⟩] ⟨"x", 9, 3, 1⟩
    (by decide) (by decide)

/-- Claim C8: the recorded start time of the next connection is at least
2 seconds after the recorded start time of the previous one:
_wait_for_connection_limit sleeps for the remainder of the 2-second
spacing measured from the last recorded start, then records the new start.
slack ≥ 0 is the sleep overshoot plus the delay of the second clock
reading. -/
theorem waitForConnectionLimit_spacing (s : SSHManagerState) (now slack : ℚ)
    (hslack : 0 ≤ slack) :
    s.lastConnectionTime + 2 ≤ (waitForConnectionLimit s now slack).lastConnectionTime := by
  by_cases h : now - s.lastConnectionTime < 2
  · simp only [waitForConnectionLimit, nextConnStart, if_pos h]
    linarith
  · simp only [waitForConnectionLimit, nextConnStart, if_neg h]
    push_neg at h
    linarith

/-- Witness for C8 at a concrete input. -/
theorem waitForConnectionLimit_spacing_witness :
    (⟨0⟩ : SSHManagerState).lastConnectionTime + 2 ≤
      (waitForConnectionLimit ⟨0⟩ 0 0).lastConnectionTime :=
  waitForConnectionLimit_spacing ⟨0⟩ 0 0 le_rfl

/-- Claim C5 counterexample: a build requested as multi-platform but
without the push flag does not take the one-step buildx direct-to-registry
path; build_stack falls back to a plain docker build that materializes a
local image and publishes nothing. -/
theorem serviceBuildSteps_multiplatform_cex :
    serviceBuildSteps true false = [BuildStep.dockerBuild] ∧
    BuildStep.buildxBuildPush ∉ serviceBuildSteps true false ∧
    materializesLocalImage (serviceBuildSteps true false) = true := by decide

/-- Claim C5 amended: a build goes through the one-step buildx
direct-to-registry path, with no local image, exactly when it is requested
as multi-platform with push in the same call; in every other case a local
image is materialized by a plain docker build, and a separate push step
follows exactly when push is requested for a single-platform build. -/
theorem serviceBuildSteps_modes (multiplatform push : Bool) :
    (serviceBuildSteps multiplatform push = [BuildStep.buildxBuildPush] ↔
      (multiplatform && push) = true) ∧
    (materializesLocalImage (serviceBuildSteps multiplatform push) =
      !(multiplatform && push)) ∧
    (BuildStep.dockerPush ∈ serviceBuildSteps multiplatform push ↔
      (push && !multiplatform) = true) := by
  cases multiplatform <;> cases push <;> decide

/-- Outcome function for the C6 counterexample: every stack deploys, the
traefik health check fails. -/
def outcomeC6 : String → StackOutcome := fun s =>
  if s == "traefik" then ⟨true, true, false⟩ else ⟨true, true, true⟩

/-- Claim C6 counterexample: a run in which every deployment succeeds but
one bundle fails its health check exits with code 0 although that bundle
ends Unhealthy, not Active. -/
theorem deployAll_exit_zero_unhealthy_cex :
    mainExitDeployAll outcomeC6 = 0 ∧
    specBundleState (outcomeC6 "traefik") = DState.unhealthy ∧
    specBundleState (outcomeC6 "traefik") ≠ DState.active ∧
    "traefik" ∈ STACK_ORDER := by decide

/-- Claim C6 amended: the deploy-all command exits 0 exactly when every
bundle completed its deployment, that is, reached Active or Unhealthy
rather than Failed; a failed health check alone does not change the exit
code, and any deployment failure yields exit code 1. -/
theorem deployAll_exit_iff_deployments (outcome : String → StackOutcome) :
    (mainExitDeployAll outcome = 0 ↔
      ∀ s ∈ STACK_ORDER, specBundleState (outcome s) ≠ DState.failed) ∧
    (mainExitDeployAll outcome = 0 ∨ mainExitDeployAll outcome = 1) := by
  have key : ∀ o : StackOutcome,
      (specBundleState o ≠ DState.failed ↔ stackDeploySucceeds o = true) := by
    intro o
    cases h : stackDeploySucceeds o <;>
      simp [specBundleState, h] <;> cases o.healthOk <;> simp
  by_cases h : deployAllStacks outcome = true
  · have h0 : mainExitDeployAll outcome = 0 := by simp [mainExitDeployAll, h]
    refine ⟨⟨fun _ => ?_, fun _ => h0⟩, Or.inl h0⟩
    intro s hs
    exact (key _).mpr ((List.all_eq_true.mp (by simpa [deployAllStacks] using h)) s hs)
  · have hf : deployAllStacks outcome = false := Bool.eq_false_iff.mpr h
    have h1 : mainExitDeployAll outcome = 1 := by simp [mainExitDeployAll, hf]
    refine ⟨⟨fun h0 => absurd (h1.symm.trans h0) (by decide), fun hall => ?_⟩, Or.inr h1⟩
    exfalso
    have hex := hf
    rw [deployAllStacks, List.all_eq_false] at hex
    obtain ⟨s, hs, hps⟩ := hex
    exact hps ((key _).mp (hall s hs))

/-- Configuration for the C3 counterexample: configuration present, every
optional item present, all transfers succeed. -/
def cfgC3 : DeployCfg := ⟨true, true, true, true, true, true⟩

/-- Claim C3 counterexample: deploy_via_ssh builds no archive and streams
nothing over the activation connection; in a full invocation it opens six
sequential connections, four of which exist only to transfer files, and
the activation connection is none of them. -/
theorem deployViaSsh_separate_scp_cex :
    ((deployConnections cfgC3).filter isTransferConn).length = 4 ∧
    (deployConnections cfgC3).length = 6 ∧
    ConnKind.sshDeploy ∉ (deployConnections cfgC3).filter isTransferConn ∧
    (deployConnections cfgC3).length ≠ 1 := by decide

/-- Claim C3 amended: deploy_via_ssh transfers each item (the compose
file, then the optional backend and frontend directories and env file)
over its own separate scp connection, after an initial mkdir connection,
and runs the rebuild-and-activate chain over a final separate ssh
connection; at least one transfer connection and at least three
connections in total are opened, and the activation connection carries no
transfer. -/
theorem deployViaSsh_connection_model (cfg : DeployCfg)
    (h1 : cfg.sshConfigOk = true) (h2 : cfg.composeFileExists = true)
    (h3 : cfg.scpComposeOk = true) :
    deployConnections cfg =
      [ConnKind.sshMkdir, ConnKind.scpCompose] ++
        (if cfg.backendDirExists then [ConnKind.scpBackend] else []) ++
        (if cfg.frontendDirExists then [ConnKind.scpFrontend] else []) ++
        (if cfg.envFileExists then [ConnKind.scpEnv] else []) ++
        [ConnKind.sshDeploy] ∧
    (deployConnections cfg).getLast? = some ConnKind.sshDeploy ∧
    1 ≤ ((deployConnections cfg).filter isTransferConn).length ∧
    3 ≤ (deployConnections cfg).length ∧
    isTransferConn ConnKind.sshDeploy = false := by
  cases hb : cfg.backendDirExists <;> cases hfr : cfg.frontendDirExists <;>
    cases he : cfg.envFileExists <;>
    simp [deployConnections, h1, h2, h3, hb, hfr, he, isTransferConn, List.getLast?]

/-- Configuration for the C3 witness: only the compose file is
transferred. -/
def cfgC3w : DeployCfg := ⟨true, true, false, false, false, true⟩

/-- Witness for the amended C3 at a concrete input. -/
theorem deployViaSsh_connection_model_witness :
    deployConnections cfgC3w =
      [ConnKind.sshMkdir, ConnKind.scpCompose] ++
        (if cfgC3w.backendDirExists then [ConnKind.scpBackend] else []) ++
        (if cfgC3w.frontendDirExists then [ConnKind.scpFrontend] else []) ++
        (if cfgC3w.envFileExists then [ConnKind.scpEnv] else []) ++
        [ConnKind.sshDeploy] ∧
    (deployConnections cfgC3w).getLast? = some ConnKind.sshDeploy ∧
    1 ≤ ((deployConnections cfgC3w).filter isTransferConn).length ∧
    3 ≤ (deployConnections cfgC3w).length ∧
    isTransferConn ConnKind.sshDeploy = false :=
  deployViaSsh_connection_model cfgC3w rfl rfl rfl

/-- Remote stack list for the C1 health-check scenarios: one active stack
named web. -/
def stacksHC : List Stack := [⟨"web", 1, 3, 1⟩]

/-- Containers for the C1 counterexample: four running and one exited
container of the web stack, so exactly 80 percent are healthy. -/
def containersC1 : List Container :=
  [⟨"running", "Up 5 minutes", "web"⟩, ⟨"running", "Up 5 minutes", "web"⟩,
   ⟨"running", "Up 5 minutes", "web"⟩, ⟨"running", "Up 5 minutes", "web"⟩,
   ⟨"exited", "Exited (1) 2 minutes ago", "web"⟩]

/-- Environment for the C1 counterexample. -/
def envC1 : PortainerEnv := ⟨some (200, stacksHC), some (200, containersC1), true, true, true⟩

/-- Claim C1 counterexample: with 4 healthy containers out of 5 the ratio
is exactly 80 percent, which the claim calls healthy, yet health_check
reports the stack unhealthy: the code requires every container to be
healthy, not 80 percent of them. -/
theorem healthCheck_eighty_percent_cex :
    healthCheck envC1 "web" = false ∧
    healthyCount (stackContainers containersC1 "web") = 4 ∧
    (stackContainers containersC1 "web").length = 5 ∧
    80 * (stackContainers containersC1 "web").length ≤
      100 * healthyCount (stackContainers containersC1 "web") := by decide

/-- Claim C1 amended: for a health check of a stack that exists and is
active, with a successful container listing, the bundle is reported
healthy exactly when the number of healthy containers equals the total
number of its containers (a 100 percent threshold, not 80 percent); in
particular 3 healthy out of 4 yields an Unhealthy verdict. -/
theorem healthCheck_requires_all_healthy (env : PortainerEnv) (stackName : String)
    (sl : List Stack) (st : Stack) (containers : List Container)
    (hl : env.listResp = some (200, sl))
    (hf : findStack sl stackName = some st)
    (hs : st.status = 1)
    (hc : env.containersResp = some (200, containers)) :
    healthCheck env stackName = true ↔
      healthyCount (stackContainers containers stackName) =
        (stackContainers containers stackName).length := by
  simp [healthCheck, getStack, hl, hf, hs, hc]

/-- Containers for the C1 witness (Scenario D): three running and one
exited container of the web stack. -/
def containersD : List Container :=
  [⟨"running", "Up 2 minutes", "web"⟩, ⟨"running", "Up 2 minutes", "web"⟩,
   ⟨"running", "Up 2 minutes", "web"⟩, ⟨"exited", "Exited (0)", "web"⟩]

/-- Environment for the C1 witness. -/
def envD : PortainerEnv := ⟨some (200, stacksHC), some (200, containersD), true, true, true⟩

/-- Witness for the amended C1: Scenario D, 3 healthy of 4 containers,
health_check reports Unhealthy. -/
theorem healthCheck_requires_all_healthy_witness :
    healthCheck envD "web" = false ∧
    healthyCount (stackContainers containersD "web") = 3 ∧
    (stackContainers containersD "web").length = 4 := by
  have h := healthCheck_requires_all_healthy envD "web" stacksHC ⟨"web", 1, 3, 1⟩ containersD
    rfl (by decide) rfl rfl
  refine ⟨?_, by decide, by decide⟩
  cases hb : healthCheck envD "web" with
  | false => rfl
  | true => exact absurd (h.mp hb) (by decide)

/-- The trace of a concatenation of connection lists is the concatenation
of the traces. -/
theorem connTrace_append (a b : List ConnKind) :
    connTrace (a ++ b) = connTrace a ++ connTrace b := by
  induction a with
  | nil => rfl
  | cons x xs ih => simp [connTrace, ih]

/-- At any prefix of the trace of sequential fully-closed connections, at
most one connection is open. -/
theorem openConns_connTrace_take_le_one (conns : List ConnKind) (n : Nat) :
    openConns ((connTrace conns).take n) ≤ 1 := by
  induction conns generalizing n with
  | nil => simp [connTrace, openConns]
  | cons c rest ih =>
    match n with
    | 0 => simp [openConns]
    | 1 => simp [connTrace, openConns]
    | Nat.succ (Nat.succ m) =>
      have hm := ih m
      simp only [connTrace, List.take_succ_cons, openConns]
      omega

/-- The run trace is the trace of all connections of the run in order. -/
theorem runTrace_eq_connTrace (ops : List RemoteOp) :
    runTrace ops = connTrace ((ops.map opConnections).flatten) := by
  induction ops with
  | nil => rfl
  | cons op rest ih => simp [runTrace, connTrace_append, ih]

/-- Claim C2: at every point of a run, that is after any prefix of the
open/close event trace of a sequence of remote operations
(run_ssh_command, run_multiple_commands, deploy_via_ssh), the number of
simultaneously open remote connections is at most 2: each operation opens
its connections through blocking calls that return only after the
connection closes, and the single-threaded run sequences them strictly,
so in fact at most one connection is ever open. -/
theorem session_cap_invariant (ops : List RemoteOp) (n : Nat) :
    openConns ((runTrace ops).take n) ≤ 2 := by
  rw [runTrace_eq_connTrace]
  have h := openConns_connTrace_take_le_one ((ops.map opConnections).flatten) n
  omega

/-- The and-chain exits 0 exactly when every command exits 0. -/
theorem chainExit_eq_zero_iff (codes : List Int) :
    chainExit codes = 0 ↔ ∀ c ∈ codes, c = 0 := by
  induction codes with
  | nil => simp [chainExit]
  | cons c rest ih =>
    by_cases hc : c = 0
    · subst hc
      simp [chainExit, ih]
    · simp only [chainExit, beq_iff_eq, if_neg hc]
      simp [hc]

/-- Indexing an all-false list yields false. -/
theorem getD_map_false (l : List Int) (m : Nat) :
    ((l.map fun _ => false).getD m false) = false := by
  induction l generalizing m with
  | nil => simp
  | cons x xs ih =>
    cases m with
    | zero => simp
    | succ k => simpa using ih k

/-- The i-th command of the and-chain executes exactly when i is in range
and every earlier command exited 0. -/
theorem chainExecuted_getD (codes : List Int) (i : Nat) :
    (chainExecuted codes).getD i false = true ↔
      i < codes.length ∧ ∀ j, j < i → codes.getD j 1 = 0 := by
  induction codes generalizing i with
  | nil => simp [chainExecuted]
  | cons c rest ih =>
    cases i with
    | zero => simp [chainExecuted]
    | succ m =>
      by_cases hc : c = 0
      · subst hc
        have htail : chainExecuted ((0 : Int) :: rest) = true :: chainExecuted rest := by
          simp [chainExecuted]
        rw [htail, List.getD_cons_succ, ih]
        constructor
        · rintro ⟨hm, hall⟩
          refine ⟨Nat.succ_lt_succ hm, ?_⟩
          intro j hj
          cases j with
          | zero => simp
          | succ k =>
            rw [List.getD_cons_succ]
            exact hall k (Nat.lt_of_succ_lt_succ hj)
        · rintro ⟨hm, hall⟩
          refine ⟨Nat.lt_of_succ_lt_succ hm, ?_⟩
          intro j hj
          have hjj := hall (j + 1) (Nat.succ_lt_succ hj)
          rwa [List.getD_cons_succ] at hjj
      · have htail : chainExecuted (c :: rest) = true :: rest.map fun _ => false := by
          simp [chainExecuted, hc]
        rw [htail, List.getD_cons_succ, getD_map_false]
        constructor
        · intro hfa
          exact absurd hfa (by decide)
        · rintro ⟨hm, hall⟩
          have h0 : c = 0 := by simpa using hall 0 (Nat.succ_pos m)
          exact absurd h0 hc

/-- Claim C10: run_multiple_commands wraps each command in parentheses and
joins them with the shell and-operator into one remote invocation; under
the and-chain semantics the i-th command executes exactly when every
earlier command exited 0, the call reports success exactly when the whole
chain exits 0, and the chain exits 0 exactly when every command does. -/
theorem runMultipleCommands_chain (cmds : List String) (codes : List Int)
    (hne : cmds ≠ []) (hlen : codes.length = cmds.length) :
    combinedCommand cmds = String.intercalate " && " (cmds.map fun c => "(" ++ c ++ ")") ∧
    (∀ i : Nat, (chainExecuted codes).getD i false = true ↔
      i < codes.length ∧ ∀ j, j < i → codes.getD j 1 = 0) ∧
    (runMultipleCommandsOk codes = true ↔ chainExit codes = 0) ∧
    (chainExit codes = 0 ↔ ∀ c ∈ codes, c = 0) := by
  refine ⟨rfl, fun i => chainExecuted_getD codes i, ?_, chainExit_eq_zero_iff codes⟩
  simp [runMultipleCommandsOk]

/-- Witness for C10 at a concrete input: two succeeding commands. -/
theorem runMultipleCommands_chain_witness :
    combinedCommand ["echo a", "echo b"] = "(echo a) && (echo b)" ∧
    runMultipleCommandsOk [(0 : Int), 0] = true ∧
    (chainExecuted [(0 : Int), 0]).getD 1 false = true := by
  have h := runMultipleCommands_chain ["echo a", "echo b"] [(0 : Int), 0]
    (by decide) (by decide)
  refine ⟨by rw [h.1]; decide, (h.2.2.1).mpr (by decide), (h.2.1 1).mpr (by decide)⟩
